import Mathlib

/-!
# ChArUco detector: camera intrinsics store and frame orchestration

A shallow embedding of `src/charuco_detector.cpp` (class `ChArUcoDetector`).

* `double` / `float` values are only copied, compared with `0.0` and (once)
  multiplied in this file of the program; they are modelled as rationals
  (one zero, no NaN, no rounding).
* `cv::Mat` is a row count, a column count and the row-major element list.
* `_msg->D[i]` is the unchecked `std::vector::operator[]`: past the end of `D`
  the read is undefined behaviour. What the run does there is a parameter of
  the model (`behind`): the read yields whatever value lies behind the buffer
  and the loop goes on, or the access faults and the call ends there.
* The ROS / OpenCV / Eigen collaborators are fields of `Collaborators`; each
  returns `Except Err _`, the `error` case standing for a thrown C++ exception.
* Observable effects (calls of the OpenCV primitives, successful publications,
  warnings) are collected in a list of `Event`s.
-/

namespace charuco_detector

/-! ## Data model -/

/-- Model of `double`. -/
abbrev Scalar := Rat

/-- Model of `cv::Mat` holding `CV_64F` (or pixel) elements, row-major. -/
structure Mat where
  rows : Nat
  cols : Nat
  data : List Scalar
deriving DecidableEq, Repr

namespace Mat

/-- A default constructed `cv::Mat`: no elements. -/
def empty : Mat := ⟨0, 0, []⟩

/-- The `cv::Mat::zeros(rows, cols, CV_64F)` constructor. -/
def zeros (rows cols : Nat) : Mat := ⟨rows, cols, List.replicate (rows * cols) 0⟩

/-- The `cv::Mat::total()` member: number of elements. -/
def total (m : Mat) : Nat := m.rows * m.cols

/-- Assignment through `m.at<double>(i, j) = v`. -/
def setAt (m : Mat) (i j : Nat) (v : Scalar) : Mat :=
  { m with data := m.data.set (i * m.cols + j) v }

/-- Read through `m.at<double>(i, j)`; `none` outside the matrix. -/
def getAt (m : Mat) (i j : Nat) : Option Scalar :=
  if i < m.rows ∧ j < m.cols then m.data[i * m.cols + j]? else none

end Mat

/-- Model of `std_msgs::Header`. -/
structure Header where
  seq : Nat
  stamp : Nat
  frame_id : String
deriving DecidableEq, Repr

/-- Model of `sensor_msgs::CameraInfo`: `K` is a `boost::array<double, 9>`,
`D` a `std::vector<double>` of any length. -/
structure CameraInfo where
  header : Header
  K : Fin 9 → Scalar
  D : List Scalar
deriving DecidableEq

/-- The three members of `ChArUcoDetector` that hold the camera calibration. -/
structure Store where
  camera_info_ : Option CameraInfo
  camera_intrinsics_matrix : Mat
  camera_distortion_coefficients_matrix : Mat
deriving DecidableEq

/-- The store of a freshly constructed detector. -/
def Store.initial : Store := ⟨none, Mat.empty, Mat.empty⟩

/-- Model of `cv::Point2f`. -/
structure Point2f where
  x : Scalar
  y : Scalar
deriving DecidableEq, Repr

/-- Model of `cv::Vec3d`. -/
structure Vec3d where
  v0 : Scalar
  v1 : Scalar
  v2 : Scalar
deriving DecidableEq, Repr

/-- Model of `geometry_msgs::Point`. -/
structure Point where
  x : Scalar
  y : Scalar
  z : Scalar
deriving DecidableEq, Repr

/-- Model of `geometry_msgs::Vector3`. -/
structure Vector3 where
  x : Scalar
  y : Scalar
  z : Scalar
deriving DecidableEq, Repr

/-- Model of `geometry_msgs::Quaternion` (also of the `x, y, z, w` of
`Eigen::Quaterniond`). -/
structure Quaternion where
  x : Scalar
  y : Scalar
  z : Scalar
  w : Scalar
deriving DecidableEq, Repr

/-- Model of `geometry_msgs::Pose`. -/
structure Pose where
  position : Point
  orientation : Quaternion
deriving DecidableEq, Repr

/-- Model of `geometry_msgs::PoseStamped`. -/
structure PoseStamped where
  header : Header
  pose : Pose
deriving DecidableEq, Repr

/-- Model of `geometry_msgs::Transform`. -/
structure Transform where
  translation : Vector3
  rotation : Quaternion
deriving DecidableEq, Repr

/-- Model of `geometry_msgs::TransformStamped`. -/
structure TransformStamped where
  header : Header
  child_frame_id : String
  transform : Transform
deriving DecidableEq, Repr

/-- Model of `sensor_msgs::Image`. -/
structure ImageMsg where
  header : Header
  encoding : String
  image : Mat
deriving DecidableEq, Repr

/-- A value-initialised `std_msgs::Header()`. -/
def Header.default : Header := ⟨0, 0, ""⟩

/-- A value-initialised `geometry_msgs::PoseStamped`. -/
def PoseStamped.default : PoseStamped := ⟨Header.default, ⟨⟨0, 0, 0⟩, ⟨0, 0, 0, 0⟩⟩⟩

/-- A value-initialised `geometry_msgs::TransformStamped`. -/
def TransformStamped.default : TransformStamped :=
  ⟨Header.default, "", ⟨⟨0, 0, 0⟩, ⟨0, 0, 0, 0⟩⟩⟩

/-- A default constructed `cv::Vec3d` (all zero). -/
def Vec3d.default : Vec3d := ⟨0, 0, 0⟩

/-- Model of `std::vector<std::vector<cv::Point2f> >`: one corner list per marker. -/
abbrev MarkerCorners := List (List Point2f)

/-- A `cv::Scalar` colour (first three channels). -/
abbrev Colour := Nat × Nat × Nat

/-- The members of `ChArUcoDetector` read by the image path (set once by
`setupConfigurationFromParameterServer`). -/
structure Config where
  squares_sides_size_m_ : Scalar
  number_of_squares_in_x_ : Int
  number_of_squares_in_y_ : Int
  charuco_tf_frame_ : String
deriving DecidableEq, Repr

/-- The parameter-server defaults of lines 42-50. -/
def Config.defaults : Config := ⟨28 / 1000, 10, 14, "charuco"⟩

/-- The three kinds of `ROS_WARN` in the file. -/
inductive Warning where
  | discardedImage
  | caughtException
  | invalidIntrinsics
deriving DecidableEq, Repr

/-- Observable effects: a call of an external primitive (recorded when the call
is made, with the arguments the properties speak about), a publication that
went through, or a warning. -/
inductive Event where
  | toCvCopy
  | detectMarkers
  | refineDetectedMarkers (camera_intrinsics : Mat)
  | interpolateCornersCharuco (marker_corners : MarkerCorners) (marker_ids : List Int)
  | estimatePoseCharucoBoard (charuco_corners : List Point2f) (charuco_ids : List Int)
  | cvtColor
  | drawDetectedMarkers (corners : MarkerCorners)
  | drawDetectedCornersCharuco
  | drawAxis (axisLength : Scalar)
  | Rodrigues
  | toImageMsg
  | posePublished (p : PoseStamped)
  | transformSent (t : TransformStamped)
  | imagePublished (m : ImageMsg)
  | warned (w : Warning)
deriving DecidableEq, Repr

/-- A thrown C++ exception. -/
structure Err where
  what : String
deriving DecidableEq, Repr

/-! ## cameraInfoCallback -/

/-- How a call of `cameraInfoCallback` ends: it returns with the store `s`
(`log` holds the `ROS_WARN` issued, if any), or a read of `_msg->D[i]` past the
end of `D` faults (the process is killed) while the store is `s`. -/
inductive CameraInfoOutcome where
  | returned (s : Store) (log : List Event)
  | failedAccess (s : Store)
deriving DecidableEq

/-- The read `_msg->D[i]` of line 135, through the unchecked
`std::vector::operator[]`. Inside the vector it yields the element. Past the end
there is no check: `behind i` is what the run meets there, `some v` when the
read yields the value `v` that lies behind the buffer, `none` when the access
faults. -/
def readDistortion (behind : Nat → Option Scalar) (msg : CameraInfo) (i : Nat) :
    Option Scalar :=
  match msg.D[i]? with
  | some v => some v
  | none => behind i

/-- Lines 115-121: the scan of `_msg->K` that sets `valid_camera_info` at the
first non-zero entry. -/
def validCameraInfo (msg : CameraInfo) : Bool :=
  (List.finRange 9).any fun i => msg.K i != 0

/-- Lines 128-132: the double loop copying `K[i * 3 + j]` to `(i, j)`. -/
def copyIntrinsics (msg : CameraInfo) (m : Mat) : Mat :=
  (List.finRange 3).foldl
    (fun m i => (List.finRange 3).foldl
      (fun m j => m.setAt i.val j.val (msg.K ⟨i.val * 3 + j.val, by omega⟩)) m) m

/-- Lines 134-136: the loop `for (i = 0; i < 5; i++) at(0, i) = D[i]`, from index
`i` with `n` iterations left. The store is updated element by element. -/
def copyDistortion (behind : Nat → Option Scalar) (msg : CameraInfo) (s : Store) :
    Nat → Nat → CameraInfoOutcome
  | _, 0 => .returned s []
  | i, n + 1 =>
    match readDistortion behind msg i with
    | none => .failedAccess s
    | some v =>
      copyDistortion behind msg
        { s with camera_distortion_coefficients_matrix :=
                   s.camera_distortion_coefficients_matrix.setAt 0 i v } (i + 1) n

/-- Lines 114-140, `ChArUcoDetector::cameraInfoCallback`; `behind` is what lies
behind the buffer of `_msg->D` (see `readDistortion`). -/
def cameraInfoCallback (behind : Nat → Option Scalar) (s : Store) (msg : CameraInfo) :
    CameraInfoOutcome :=
  if validCameraInfo msg then
    let s1 : Store := { s with camera_info_ := some msg }
    let s2 : Store := { s1 with camera_intrinsics_matrix := Mat.zeros 3 3 }
    let s3 : Store := { s2 with camera_distortion_coefficients_matrix := Mat.zeros 1 5 }
    let s4 : Store :=
      { s3 with camera_intrinsics_matrix := copyIntrinsics msg s3.camera_intrinsics_matrix }
    copyDistortion behind msg s4 0 5
  else
    .returned s [.warned .invalidIntrinsics]

/-- The store a call of `cameraInfoCallback` leaves, however the call ends. -/
def CameraInfoOutcome.store : CameraInfoOutcome → Store
  | .returned s _ => s
  | .failedAccess s => s

/-- A store that is entirely the values of the message `msg`: `camera_info_` is
the message, the intrinsic matrix is the 3x3 matrix of `K`, and
every entry of the 1x5 distortion matrix is the entry of `D` at that index. -/
def Store.holdsMessage (s : Store) (msg : CameraInfo) : Prop :=
  s.camera_info_ = some msg ∧
  s.camera_intrinsics_matrix = ⟨3, 3, List.ofFn msg.K⟩ ∧
  s.camera_distortion_coefficients_matrix.rows = 1 ∧
  s.camera_distortion_coefficients_matrix.cols = 5 ∧
  ∀ i : Fin 5, s.camera_distortion_coefficients_matrix.getAt 0 i.val = msg.D[i.val]?

/-! ## Computations with effects and exceptions -/

/-- A computation that has run: the events it produced, and either its value or
the exception that ended it. -/
structure Run (α : Type) where
  result : Except Err α
  trace : List Event

namespace Run

/-- Sequencing: the second part runs only if the first did not throw. -/
def bind {α β : Type} (x : Run α) (f : α → Run β) : Run β :=
  match x.result with
  | .ok a => ⟨(f a).result, x.trace ++ (f a).trace⟩
  | .error e => ⟨.error e, x.trace⟩

instance : Monad Run where
  pure a := ⟨.ok a, []⟩
  bind := Run.bind

/-- A call of an external primitive: the call is recorded, then the primitive
returns or throws. -/
def invoke {α : Type} (e : Event) (r : Except Err α) : Run α := ⟨r, [e]⟩

/-- A call of a sink: the publication is recorded if the sink does not throw. -/
def emit (e : Event) (r : Except Err Unit) : Run Unit :=
  match r with
  | .ok _ => ⟨.ok (), [e]⟩
  | .error x => ⟨.error x, []⟩

/-- The `ROS_WARN` macro. -/
def warn (w : Warning) : Run Unit := ⟨.ok (), [.warned w]⟩

/-- The `try { body } catch (...) { handler }` statement. -/
def tryCatchAll (body handler : Run Unit) : Run Unit :=
  match body.result with
  | .ok _ => body
  | .error _ => ⟨handler.result, body.trace ++ handler.trace⟩

end Run

open Run

/-- The external collaborators (cv_bridge, OpenCV aruco, Eigen, ROS publishers).
The members `dictionary_`, `board_` and `detector_parameters_` are fixed after
start-up and are part of the primitives. -/
structure Collaborators where
  toCvCopy : ImageMsg → String → Except Err Mat
  detectMarkers : Mat → Except Err (MarkerCorners × List Int × MarkerCorners)
  refineDetectedMarkers : Mat → MarkerCorners → List Int → MarkerCorners → Mat → Mat →
    Except Err (MarkerCorners × List Int × MarkerCorners)
  interpolateCornersCharuco : MarkerCorners → List Int → Mat → Mat → Mat →
    Except Err (Int × List Point2f × List Int)
  estimatePoseCharucoBoard : List Point2f → List Int → Mat → Mat → Vec3d → Vec3d →
    Except Err (Bool × Vec3d × Vec3d)
  cvtColor : Mat → Except Err Mat
  drawDetectedMarkers : Mat → MarkerCorners → Option Colour → Except Err Mat
  drawDetectedCornersCharuco : Mat → List Point2f → List Int → Colour → Except Err Mat
  drawAxis : Mat → Mat → Mat → Vec3d → Vec3d → Scalar → Except Err Mat
  rotationToQuaternion : Vec3d → Except Err Quaternion
  publishPose : PoseStamped → Except Err Unit
  sendTransform : TransformStamped → Except Err Unit
  toImageMsg : Header → String → Mat → Except Err ImageMsg
  publishImage : ImageMsg → Except Err Unit

/-- The local variables of `detectChArUcoBoard` when it returns; `valid_pose`
is the returned `bool`. -/
structure Detection where
  marker_ids : List Int
  marker_corners : MarkerCorners
  rejected_markers : MarkerCorners
  charuco_ids : List Int
  charuco_corners : List Point2f
  interpolatedCorners : Int
  valid_pose : Bool
  camera_rotation_out : Vec3d
  camera_translation_out : Vec3d
  image_with_detection_results : Mat
deriving DecidableEq, Repr

/-! ## detectChArUcoBoard -/

/-- Lines 163-176: the drawing of markers, rejected candidates and corners. -/
def drawDetections (env : Collaborators) (image_grayscale : Mat)
    (marker_ids : List Int) (marker_corners rejected_markers : MarkerCorners)
    (interpolatedCorners : Int) (charuco_corners : List Point2f) (charuco_ids : List Int)
    (show_rejected_markers : Bool) : Run Mat := do
  let canvas ← invoke .cvtColor (env.cvtColor image_grayscale)
  let canvas ←
    if !marker_ids.isEmpty then
      invoke (.drawDetectedMarkers marker_corners)
        (env.drawDetectedMarkers canvas marker_corners none)
    else pure canvas
  let canvas ←
    if show_rejected_markers && !rejected_markers.isEmpty then
      invoke (.drawDetectedMarkers rejected_markers)
        (env.drawDetectedMarkers canvas rejected_markers (some (100, 0, 255)))
    else pure canvas
  if interpolatedCorners > 0 then
    invoke .drawDetectedCornersCharuco
      (env.drawDetectedCornersCharuco canvas charuco_corners charuco_ids (255, 0, 0))
  else pure canvas

/-- Line 180: `0.5f * float(min(squares_x, squares_y) * squares_sides_size_m_)`,
as the exact product; the rounding to `float` is not modelled. -/
def axisLength (cfg : Config) : Scalar :=
  (1 / 2) * (((min cfg.number_of_squares_in_x_ cfg.number_of_squares_in_y_ : Int) : Scalar)
    * cfg.squares_sides_size_m_)

/-- Lines 143-188, `ChArUcoDetector::detectChArUcoBoard`. The arguments
`rotation_in`, `translation_in` are the values of the two output references on
entry, `image_in` that of `_image_with_detection_results`, and `needed` the
value of `_image_with_detection_results.needed()`. -/
def detectChArUcoBoard (env : Collaborators) (cfg : Config) (image_grayscale : Mat)
    (camera_intrinsics camera_distortion_coefficients : Mat)
    (rotation_in translation_in : Vec3d) (image_in : Mat) (needed : Bool)
    (show_rejected_markers : Bool) : Run Detection := do
  let (marker_corners, marker_ids, rejected_markers) ←
    invoke .detectMarkers (env.detectMarkers image_grayscale)
  let (marker_corners, marker_ids, rejected_markers) ←
    invoke (.refineDetectedMarkers camera_intrinsics)
      (env.refineDetectedMarkers image_grayscale marker_corners marker_ids rejected_markers
        camera_intrinsics camera_distortion_coefficients)
  let (interpolatedCorners, charuco_corners, charuco_ids) ←
    if !marker_ids.isEmpty then
      invoke (.interpolateCornersCharuco marker_corners marker_ids)
        (env.interpolateCornersCharuco marker_corners marker_ids image_grayscale
          camera_intrinsics camera_distortion_coefficients)
    else pure ((0 : Int), ([] : List Point2f), ([] : List Int))
  let (valid_pose, rotation, translation) ←
    if camera_intrinsics.total != 0 then
      invoke (.estimatePoseCharucoBoard charuco_corners charuco_ids)
        (env.estimatePoseCharucoBoard charuco_corners charuco_ids camera_intrinsics
          camera_distortion_coefficients rotation_in translation_in)
    else pure (false, rotation_in, translation_in)
  let canvas ←
    if needed then
      drawDetections env image_grayscale marker_ids marker_corners rejected_markers
        interpolatedCorners charuco_corners charuco_ids show_rejected_markers
    else pure image_in
  let locals (valid : Bool) (canvas : Mat) : Detection :=
    { marker_ids := marker_ids
      marker_corners := marker_corners
      rejected_markers := rejected_markers
      charuco_ids := charuco_ids
      charuco_corners := charuco_corners
      interpolatedCorners := interpolatedCorners
      valid_pose := valid
      camera_rotation_out := rotation
      camera_translation_out := translation
      image_with_detection_results := canvas }
  if valid_pose then
    let canvas ←
      if needed then
        invoke (.drawAxis (axisLength cfg))
          (env.drawAxis canvas camera_intrinsics camera_distortion_coefficients rotation
            translation (axisLength cfg))
      else pure canvas
    pure (locals true canvas)
  else pure (locals false canvas)

/-! ## fillPose and imageCallback -/

/-- Lines 191-204, `ChArUcoDetector::fillPose`; `cv::Rodrigues`, `cv2eigen` and
the `Eigen::Quaterniond` constructor are the collaborator
`rotationToQuaternion`. -/
def fillPose (env : Collaborators) (camera_rotation camera_translation : Vec3d)
    (pose_in_out : PoseStamped) : Run PoseStamped := do
  let q ← invoke .Rodrigues (env.rotationToQuaternion camera_rotation)
  pure
    { pose_in_out with
      pose :=
        { position := ⟨camera_translation.v0, camera_translation.v1, camera_translation.v2⟩
          orientation := ⟨q.x, q.y, q.z, q.w⟩ } }

/-- Lines 94-99: the transform built from the pose. -/
def transformOfPose (cfg : Config) (header : Header) (charuco_pose : PoseStamped) :
    TransformStamped :=
  { TransformStamped.default with
    header := header
    child_frame_id := cfg.charuco_tf_frame_
    transform :=
      { translation :=
          ⟨charuco_pose.pose.position.x, charuco_pose.pose.position.y,
            charuco_pose.pose.position.z⟩
        rotation := charuco_pose.pose.orientation } }

/-- Lines 88-103: what `imageCallback` does once `detectChArUcoBoard` has
returned true, `d` holding the rotation, translation and image it produced. -/
def publishDetection (env : Collaborators) (cfg : Config) (msg : ImageMsg) (d : Detection) :
    Run Unit := do
  let charuco_pose : PoseStamped := { PoseStamped.default with header := msg.header }
  let charuco_pose ← fillPose env d.camera_rotation_out d.camera_translation_out charuco_pose
  emit (.posePublished charuco_pose) (env.publishPose charuco_pose)
  let static_transformStamped := transformOfPose cfg msg.header charuco_pose
  emit (.transformSent static_transformStamped) (env.sendTransform static_transformStamped)
  let image_results_msg ←
    invoke .toImageMsg (env.toImageMsg Header.default "rgb8" d.image_with_detection_results)
  emit (.imagePublished image_results_msg) (env.publishImage image_results_msg)

/-- Lines 82-104: the body of the `try` block of `imageCallback`. -/
def imageCallbackTry (env : Collaborators) (cfg : Config) (s : Store) (msg : ImageMsg) :
    Run Unit := do
  let image_grayscale ← invoke .toCvCopy (env.toCvCopy msg "mono8")
  let d ← detectChArUcoBoard env cfg image_grayscale s.camera_intrinsics_matrix
    s.camera_distortion_coefficients_matrix Vec3d.default Vec3d.default Mat.empty true true
  if d.valid_pose then publishDetection env cfg msg d else pure ()

/-- Lines 79-111, `ChArUcoDetector::imageCallback`. The value of the run is the
store when the callback returns. -/
def imageCallback (env : Collaborators) (cfg : Config) (s : Store) (msg : ImageMsg) :
    Run Store :=
  match s.camera_info_ with
  | some _ => do
    tryCatchAll (imageCallbackTry env cfg s msg) (warn .caughtException)
    pure s
  | none => do
    warn .discardedImage
    pure s

/-- What a run sent to the pose, transform and visualization sinks. -/
def Event.isEmission : Event → Bool
  | .posePublished _ => true
  | .transformSent _ => true
  | .imagePublished _ => true
  | _ => false

/-- The publications of a trace, in order. -/
def emissions (t : List Event) : List Event := t.filter Event.isEmission

/-- The calls of primitives made by `detectChArUcoBoard`. -/
def Event.isDetectionCall : Event → Bool
  | .detectMarkers => true
  | .refineDetectedMarkers _ => true
  | .interpolateCornersCharuco _ _ => true
  | .estimatePoseCharucoBoard _ _ => true
  | .cvtColor => true
  | .drawDetectedMarkers _ => true
  | .drawDetectedCornersCharuco => true
  | .drawAxis _ => true
  | _ => false

/-! ## Predicates on runs -/

/-- A run that published nothing. -/
def Run.Quiet {α : Type} (x : Run α) : Prop := emissions x.trace = []

/-- A property of every event of a run. -/
def Run.TraceAll {α : Type} (x : Run α) (p : Event → Prop) : Prop := ∀ e ∈ x.trace, p e

/-! ## Sample messages and collaborators -/

/-- A calibration message of a camera that is not calibrated yet: `K` all zero. -/
def uncalibratedInfo : CameraInfo :=
  ⟨⟨0, 0, "camera"⟩, fun _ => 0, [0, 0, 0, 0, 0]⟩

/-- A calibration message of a pinhole camera with five distortion coefficients. -/
def pinholeInfo : CameraInfo :=
  ⟨⟨1, 10, "camera"⟩, ![600, 0, 320, 0, 600, 240, 0, 0, 1], [1, -2, 0, 0, 3]⟩

/-- A calibration message of a fisheye camera: the equidistant model has four
distortion coefficients. -/
def fisheyeInfo : CameraInfo :=
  ⟨⟨2, 20, "camera"⟩, ![400, 0, 320, 0, 400, 240, 0, 0, 1], [8, 4, 2, 1]⟩

/-- Memory behind the buffer of `D` that cannot be read: every access past the
end faults. -/
def unmappedBehind : Nat → Option Scalar := fun _ => none

/-- Readable memory behind the buffer of `D`, holding the value 77. -/
def garbageBehind : Nat → Option Scalar := fun _ => some 77

/-- The store after `pinholeInfo` was accepted. -/
def calibratedStore : Store :=
  ⟨some pinholeInfo, ⟨3, 3, [600, 0, 320, 0, 600, 240, 0, 0, 1]⟩,
    ⟨1, 5, [1, -2, 0, 0, 3]⟩⟩

/-- The store that `fisheyeInfo` leaves when `v` is the fifth distortion entry. -/
def mixedStore (v : Scalar) : Store :=
  ⟨some fisheyeInfo, ⟨3, 3, [400, 0, 320, 0, 400, 240, 0, 0, 1]⟩,
    ⟨1, 5, [8, 4, 2, 1, v]⟩⟩

/-- An incoming image message. -/
def sampleImage : ImageMsg :=
  ⟨⟨7, 1000, "camera"⟩, "bgr8", ⟨2, 2, [10, 20, 30, 40]⟩⟩

/-- Corners of a detected marker. -/
def markerA : List Point2f := [⟨0, 0⟩, ⟨1, 0⟩, ⟨1, 1⟩, ⟨0, 1⟩]

/-- Corners of a rejected candidate. -/
def candidateB : List Point2f := [⟨2, 0⟩, ⟨3, 0⟩, ⟨3, 1⟩, ⟨2, 1⟩]

/-- Four interpolated chessboard corners. -/
def boardCorners : List Point2f := [⟨1, 1⟩, ⟨2, 1⟩, ⟨1, 2⟩, ⟨2, 2⟩]

/-- Collaborators in front of a visible board: one marker is detected, the
refinement recovers a second one from the rejected candidates, four corners are
interpolated, and the pose solver follows OpenCV (it throws on sequences of
different lengths and returns false below four corners). -/
def boardEnv : Collaborators where
  toCvCopy := fun msg _ => .ok msg.image
  detectMarkers := fun _ => .ok ([markerA], [3], [candidateB])
  refineDetectedMarkers := fun _ mc ids rj _ _ => .ok (mc ++ rj, ids ++ [7], [])
  interpolateCornersCharuco := fun _ _ _ _ _ => .ok (4, boardCorners, [0, 1, 2, 3])
  estimatePoseCharucoBoard := fun cc ci _ _ r t =>
    if cc.length ≠ ci.length then .error ⟨"CV_Assert"⟩
    else if ci.length < 4 then .ok (false, r, t)
    else .ok (true, ⟨0, 0, 0⟩, ⟨1, 0, 5⟩)
  cvtColor := fun m => .ok m
  drawDetectedMarkers := fun canvas _ _ => .ok canvas
  drawDetectedCornersCharuco := fun canvas _ _ _ => .ok canvas
  drawAxis := fun canvas _ _ _ _ _ => .ok canvas
  rotationToQuaternion := fun _ => .ok ⟨0, 0, 0, 1⟩
  publishPose := fun _ => .ok ()
  sendTransform := fun _ => .ok ()
  toImageMsg := fun header encoding m => .ok ⟨header, encoding, m⟩
  publishImage := fun _ => .ok ()

/-- Collaborators in front of an image without board: no marker, no candidate. -/
def blankEnv : Collaborators :=
  { boardEnv with
    detectMarkers := fun _ => .ok ([], [], [])
    refineDetectedMarkers := fun _ mc ids rj _ _ => .ok (mc, ids, rj) }

/-- Collaborators in front of a visible board, with a transform broadcaster that
throws. -/
def brokenTfEnv : Collaborators :=
  { boardEnv with sendTransform := fun _ => .error ⟨"tf2::TransformException"⟩ }

/-- The local variables of `detectChArUcoBoard` for `boardEnv`. -/
def boardDetection : Detection :=
  { marker_ids := [3, 7]
    marker_corners := [markerA, candidateB]
    rejected_markers := []
    charuco_ids := [0, 1, 2, 3]
    charuco_corners := boardCorners
    interpolatedCorners := 4
    valid_pose := true
    camera_rotation_out := ⟨0, 0, 0⟩
    camera_translation_out := ⟨1, 0, 5⟩
    image_with_detection_results := ⟨2, 2, [10, 20, 30, 40]⟩ }

/-- The local variables of `detectChArUcoBoard` for `blankEnv`. -/
def blankDetection : Detection :=
  { marker_ids := []
    marker_corners := []
    rejected_markers := []
    charuco_ids := []
    charuco_corners := []
    interpolatedCorners := 0
    valid_pose := false
    camera_rotation_out := ⟨0, 0, 0⟩
    camera_translation_out := ⟨0, 0, 0⟩
    image_with_detection_results := ⟨2, 2, [10, 20, 30, 40]⟩ }

/-- The pose published for `sampleImage` with `boardEnv`. -/
def boardPose : PoseStamped :=
  ⟨⟨7, 1000, "camera"⟩, ⟨⟨1, 0, 5⟩, ⟨0, 0, 0, 1⟩⟩⟩

/-- The transform broadcast for `sampleImage` with `boardEnv`. -/
def boardTransform : TransformStamped :=
  ⟨⟨7, 1000, "camera"⟩, "charuco", ⟨⟨1, 0, 5⟩, ⟨0, 0, 0, 1⟩⟩⟩

/-- The visualization message published for `sampleImage` with `boardEnv`. -/
def boardVisualization : ImageMsg :=
  ⟨⟨0, 0, ""⟩, "rgb8", ⟨2, 2, [10, 20, 30, 40]⟩⟩

/-! ## Properties of cameraInfoCallback -/

theorem validCameraInfo_eq_true_iff (msg : CameraInfo) :
    validCameraInfo msg = true ↔ ∃ i, msg.K i ≠ 0 := by
  simp [validCameraInfo]

theorem validCameraInfo_eq_false_iff (msg : CameraInfo) :
    validCameraInfo msg = false ↔ ∀ i, msg.K i = 0 := by
  simp [validCameraInfo]

/-- The matrix left by the double loop on a zeroed 3x3 matrix. -/
theorem copyIntrinsics_zeros (msg : CameraInfo) :
    copyIntrinsics msg (Mat.zeros 3 3) = ⟨3, 3, List.ofFn msg.K⟩ := by
  have h3 : List.finRange 3 = [0, 1, 2] := by decide
  simp [copyIntrinsics, h3, Mat.zeros, Mat.setAt, List.ofFn_succ, List.replicate]
  exact ⟨rfl, rfl, rfl, rfl, rfl, rfl⟩

/-- With at least five coefficients the distortion loop never reads past the
end: it runs to its end and leaves the first five of them, in order. -/
theorem copyDistortion_five (behind : Nat → Option Scalar) (msg : CameraInfo) (s : Store)
    (h : 5 ≤ msg.D.length)
    (hz : s.camera_distortion_coefficients_matrix = Mat.zeros 1 5) :
    copyDistortion behind msg s 0 5 =
      .returned { s with camera_distortion_coefficients_matrix := ⟨1, 5, msg.D.take 5⟩ } [] := by
  obtain ⟨hdr, K, D⟩ := msg
  obtain ⟨ci, km, dm⟩ := s
  simp only at hz h
  subst hz
  match D, h with
  | a :: b :: c :: d :: e :: rest, _ =>
    simp [copyDistortion, readDistortion, Mat.setAt, Mat.zeros, List.replicate]

/-- An accepted message with at least five distortion coefficients replaces the
whole store. -/
theorem cameraInfoCallback_accepted (behind : Nat → Option Scalar) (s : Store)
    (msg : CameraInfo) (hK : validCameraInfo msg = true) (hD : 5 ≤ msg.D.length) :
    cameraInfoCallback behind s msg =
      .returned ⟨some msg, ⟨3, 3, List.ofFn msg.K⟩, ⟨1, 5, msg.D.take 5⟩⟩ [] := by
  simp only [cameraInfoCallback, hK, if_true, copyIntrinsics_zeros]
  rw [copyDistortion_five behind msg _ hD rfl]

/-- Claim C2: a calibration message whose nine entries of `K` are all zero leaves
the store (`camera_info_`, intrinsic matrix, distortion matrix) exactly as it
was, whatever it was, absent included; the call returns after one warning. -/
theorem cameraInfoCallback_all_zero_is_noop (behind : Nat → Option Scalar) (s : Store)
    (msg : CameraInfo) (hK : ∀ i, msg.K i = 0) :
    cameraInfoCallback behind s msg = .returned s [.warned .invalidIntrinsics] := by
  have hv : validCameraInfo msg = false := (validCameraInfo_eq_false_iff msg).2 hK
  simp [cameraInfoCallback, hv]

/-- Claim C3: a calibration message with a non-zero entry in `K` and a
five-element `D` is stored: the call returns, `camera_info_` is the message, the
intrinsic matrix is 3x3 with entry `(i, j)` equal to `K[3 * i + j]`, and the
distortion matrix is 1x5 with entry `(0, i)` equal to `D[i]`. -/
theorem cameraInfoCallback_stores_message (behind : Nat → Option Scalar) (s : Store)
    (msg : CameraInfo) (hK : ∃ i, msg.K i ≠ 0) (hD : msg.D.length = 5) :
    ∃ s' : Store, cameraInfoCallback behind s msg = .returned s' [] ∧
      s'.camera_info_ = some msg ∧
      s'.camera_intrinsics_matrix.rows = 3 ∧ s'.camera_intrinsics_matrix.cols = 3 ∧
      (∀ i j : Fin 3, s'.camera_intrinsics_matrix.getAt i.val j.val =
        some (msg.K ⟨3 * i.val + j.val, by omega⟩)) ∧
      s'.camera_distortion_coefficients_matrix.rows = 1 ∧
      s'.camera_distortion_coefficients_matrix.cols = 5 ∧
      (∀ i : Fin 5, s'.camera_distortion_coefficients_matrix.getAt 0 i.val =
        some (msg.D.get ⟨i.val, by omega⟩)) := by
  refine ⟨_, cameraInfoCallback_accepted behind s msg ((validCameraInfo_eq_true_iff msg).2 hK)
    (by omega), rfl, rfl, rfl, ?_, rfl, rfl, ?_⟩
  · intro i j
    fin_cases i <;> fin_cases j <;> simp [Mat.getAt, List.ofFn_succ] <;> rfl
  · intro i
    have : msg.D.take 5 = msg.D := List.take_of_length_le (by omega)
    simp only [Mat.getAt, this]
    have hi : i.val < msg.D.length := by omega
    simp [hi, List.getElem?_eq_getElem]

/-! ## Traces without publications -/

theorem emissions_cons_of_not (e : Event) (t : List Event) (h : e.isEmission = false) :
    emissions (e :: t) = emissions t := by
  simp [emissions, h]

theorem emissions_append (t u : List Event) : emissions (t ++ u) = emissions t ++ emissions u := by
  simp [emissions]

theorem Run.bind_def {α β : Type} (x : Run α) (f : α → Run β) : x >>= f = Run.bind x f := rfl

theorem Run.pure_def {α : Type} (a : α) : (pure a : Run α) = ⟨.ok a, []⟩ := rfl

theorem Run.bind_of_ok {α β : Type} {x : Run α} {a : α} (h : x.result = .ok a)
    (f : α → Run β) : x >>= f = ⟨(f a).result, x.trace ++ (f a).trace⟩ := by
  simp [Run.bind_def, Run.bind, h]

theorem Run.bind_of_error {α β : Type} {x : Run α} {e : Err} (h : x.result = .error e)
    (f : α → Run β) : x >>= f = ⟨.error e, x.trace⟩ := by
  simp [Run.bind_def, Run.bind, h]

theorem Run.quiet_pure {α : Type} (a : α) : (pure a : Run α).Quiet := rfl

theorem Run.quiet_invoke {α : Type} (e : Event) (r : Except Err α)
    (h : e.isEmission = false) : (invoke e r).Quiet := by
  simp [Run.Quiet, invoke, emissions, h]

theorem Run.quiet_bind {α β : Type} {x : Run α} {f : α → Run β} (hx : x.Quiet)
    (hf : ∀ a, (f a).Quiet) : (x >>= f).Quiet := by
  unfold Run.Quiet at *
  rw [Run.bind_def, Run.bind]
  cases hr : x.result with
  | error e => simpa using hx
  | ok a =>
    have := hf a
    simp only [emissions, List.filter_append] at *
    simp [hx, this]

theorem Run.quiet_ite {α : Type} {c : Prop} [Decidable c] {x y : Run α} (hx : x.Quiet)
    (hy : y.Quiet) : (if c then x else y).Quiet := by
  split <;> assumption

theorem drawDetections_quiet (env : Collaborators) (img : Mat) (ids : List Int)
    (mc rj : MarkerCorners) (n : Int) (cc : List Point2f) (ci : List Int) (sr : Bool) :
    (drawDetections env img ids mc rj n cc ci sr).Quiet := by
  unfold drawDetections
  repeat' first
    | exact Run.quiet_pure _
    | exact Run.quiet_invoke _ _ rfl
    | apply Run.quiet_ite
    | apply Run.quiet_bind
    | intro _

/-- Nothing is published inside `detectChArUcoBoard`. -/
theorem detectChArUcoBoard_quiet (env : Collaborators) (cfg : Config) (img K D : Mat)
    (r0 t0 : Vec3d) (im0 : Mat) (needed sr : Bool) :
    (detectChArUcoBoard env cfg img K D r0 t0 im0 needed sr).Quiet := by
  unfold detectChArUcoBoard
  repeat' first
    | exact Run.quiet_pure _
    | exact Run.quiet_invoke _ _ rfl
    | exact drawDetections_quiet ..
    | apply Run.quiet_ite
    | apply Run.quiet_bind
    | rintro ⟨_, _, _⟩

/-- The first thing `detectChArUcoBoard` does is to call `detectMarkers`: a trace
without that call has no invocation of `detectChArUcoBoard`. -/
theorem detectChArUcoBoard_trace_head (env : Collaborators) (cfg : Config) (img K D : Mat)
    (r0 t0 : Vec3d) (im0 : Mat) (needed sr : Bool) :
    ∃ rest, (detectChArUcoBoard env cfg img K D r0 t0 im0 needed sr).trace
      = Event.detectMarkers :: rest := by
  unfold detectChArUcoBoard
  rw [Run.bind_def, Run.bind]
  cases env.detectMarkers img <;> simp [invoke]

/-! ## Properties of imageCallback -/

theorem Run.tryCatchAll_warn_result (body : Run Unit) (w : Warning) :
    (tryCatchAll body (warn w)).result = .ok () := by
  unfold tryCatchAll
  cases h : body.result <;> simp [h, warn]

theorem Run.tryCatchAll_of_ok {body : Run Unit} (h : body.result = .ok ()) (handler : Run Unit) :
    tryCatchAll body handler = body := by
  simp [tryCatchAll, h]

theorem Run.tryCatchAll_of_error {body : Run Unit} {e : Err} (h : body.result = .error e)
    (handler : Run Unit) :
    tryCatchAll body handler = ⟨handler.result, body.trace ++ handler.trace⟩ := by
  simp [tryCatchAll, h]

/-- The trace of `imageCallback` when calibration is present: that of the `try`
block, followed by the warning of the `catch` block if the block threw. -/
theorem imageCallback_trace (env : Collaborators) (cfg : Config) (s : Store) (msg : ImageMsg)
    (ci : CameraInfo) (hs : s.camera_info_ = some ci) :
    (imageCallback env cfg s msg).trace = (imageCallbackTry env cfg s msg).trace ∨
    (imageCallback env cfg s msg).trace
      = (imageCallbackTry env cfg s msg).trace ++ [.warned .caughtException] := by
  simp only [imageCallback, hs, Run.bind_def, Run.bind, Run.tryCatchAll_warn_result,
    Run.pure_def, List.append_nil]
  cases h : (imageCallbackTry env cfg s msg).result with
  | ok u => left; rw [Run.tryCatchAll_of_ok h]
  | error e => right; rw [Run.tryCatchAll_of_error h]; rfl

theorem imageCallback_emissions (env : Collaborators) (cfg : Config) (s : Store)
    (msg : ImageMsg) (ci : CameraInfo) (hs : s.camera_info_ = some ci) :
    emissions (imageCallback env cfg s msg).trace
      = emissions (imageCallbackTry env cfg s msg).trace := by
  rcases imageCallback_trace env cfg s msg ci hs with h | h <;>
    simp [h, emissions, Event.isEmission]

/-- Claim C1: an image handled while `camera_info_` is absent only produces the
"discarded image" warning: no primitive of `detectChArUcoBoard` is called (the
board detection is not invoked) and nothing is sent to the pose, transform or
visualization sink; the store stays absent. -/
theorem imageCallback_without_calibration (env : Collaborators) (cfg : Config) (s : Store)
    (msg : ImageMsg) (hs : s.camera_info_ = none) :
    imageCallback env cfg s msg = ⟨.ok s, [.warned .discardedImage]⟩ ∧
    (∀ e ∈ (imageCallback env cfg s msg).trace,
      e.isDetectionCall = false ∧ e.isEmission = false) := by
  have h : imageCallback env cfg s msg = ⟨.ok s, [.warned .discardedImage]⟩ := by
    simp [imageCallback, hs, Run.bind_def, Run.bind, warn, Run.pure_def]
  refine ⟨h, ?_⟩
  rw [h]
  intro e he
  simp only [List.mem_singleton] at he
  subst he
  exact ⟨rfl, rfl⟩

/-- Claim C7: whatever the collaborators do (return or throw, at any step),
`imageCallback` returns normally, and the store it leaves is the store it
found. -/
theorem imageCallback_contains_errors (env : Collaborators) (cfg : Config) (s : Store)
    (msg : ImageMsg) : (imageCallback env cfg s msg).result = .ok s := by
  unfold imageCallback
  cases s.camera_info_ with
  | none => simp [Run.bind_def, Run.bind, warn, Run.pure_def]
  | some ci => simp [Run.bind_def, Run.bind, Run.tryCatchAll_warn_result, Run.pure_def]

/-- Claim C5: with calibration present, when the image converts and
`detectChArUcoBoard` returns false, the callback does nothing after the
detection: no pose, no transform and no visualization is published. -/
theorem imageCallback_invalid_pose_emits_nothing (env : Collaborators) (cfg : Config)
    (s : Store) (msg : ImageMsg) (ci : CameraInfo) (img : Mat) (d : Detection)
    (hs : s.camera_info_ = some ci)
    (hconv : env.toCvCopy msg "mono8" = .ok img)
    (hdet : (detectChArUcoBoard env cfg img s.camera_intrinsics_matrix
      s.camera_distortion_coefficients_matrix Vec3d.default Vec3d.default Mat.empty
      true true).result = .ok d)
    (hv : d.valid_pose = false) :
    (imageCallback env cfg s msg).trace
      = Event.toCvCopy :: (detectChArUcoBoard env cfg img s.camera_intrinsics_matrix
          s.camera_distortion_coefficients_matrix Vec3d.default Vec3d.default Mat.empty
          true true).trace ∧
    emissions (imageCallback env cfg s msg).trace = [] := by
  have h1 : (invoke Event.toCvCopy (env.toCvCopy msg "mono8")).result = .ok img := hconv
  have hbody : imageCallbackTry env cfg s msg
      = ⟨.ok (), Event.toCvCopy :: (detectChArUcoBoard env cfg img s.camera_intrinsics_matrix
          s.camera_distortion_coefficients_matrix Vec3d.default Vec3d.default Mat.empty
          true true).trace⟩ := by
    unfold imageCallbackTry
    rw [Run.bind_of_ok h1, Run.bind_of_ok hdet]
    simp [hv, Run.pure_def, invoke]
  have htr : (imageCallback env cfg s msg).trace = (imageCallbackTry env cfg s msg).trace := by
    simp only [imageCallback, hs, Run.bind_def, Run.bind, Run.tryCatchAll_warn_result,
      Run.pure_def, List.append_nil]
    rw [Run.tryCatchAll_of_ok (by rw [hbody])]
  refine ⟨by rw [htr, hbody], ?_⟩
  rw [htr, hbody]
  have hq := detectChArUcoBoard_quiet env cfg img s.camera_intrinsics_matrix
    s.camera_distortion_coefficients_matrix Vec3d.default Vec3d.default Mat.empty true true
  rw [emissions_cons_of_not Event.toCvCopy _ rfl]
  exact hq

/-! ### The publications of one frame, step by step -/

theorem fillPose_trace (env : Collaborators) (r t : Vec3d) (p0 : PoseStamped) :
    (fillPose env r t p0).trace = [Event.Rodrigues] := by
  unfold fillPose
  rw [Run.bind_def, Run.bind]
  cases env.rotationToQuaternion r <;> simp [invoke, Run.pure_def]

theorem imageCallbackTry_of_conversion_error (env : Collaborators) (cfg : Config) (s : Store)
    (msg : ImageMsg) (e : Err) (hconv : env.toCvCopy msg "mono8" = .error e) :
    imageCallbackTry env cfg s msg = ⟨.error e, [Event.toCvCopy]⟩ := by
  have h1 : (invoke Event.toCvCopy (env.toCvCopy msg "mono8")).result = .error e := hconv
  unfold imageCallbackTry
  rw [Run.bind_of_error h1]
  rfl

theorem imageCallbackTry_of_detection_error (env : Collaborators) (cfg : Config) (s : Store)
    (msg : ImageMsg) (img : Mat) (e : Err) (hconv : env.toCvCopy msg "mono8" = .ok img)
    (hdet : (detectChArUcoBoard env cfg img s.camera_intrinsics_matrix
      s.camera_distortion_coefficients_matrix Vec3d.default Vec3d.default Mat.empty
      true true).result = .error e) :
    emissions (imageCallbackTry env cfg s msg).trace = [] := by
  have h1 : (invoke Event.toCvCopy (env.toCvCopy msg "mono8")).result = .ok img := hconv
  unfold imageCallbackTry
  rw [Run.bind_of_ok h1, Run.bind_of_error hdet]
  simp only [invoke, List.singleton_append]
  rw [emissions_cons_of_not Event.toCvCopy _ rfl]
  exact detectChArUcoBoard_quiet ..

theorem imageCallbackTry_of_valid (env : Collaborators) (cfg : Config) (s : Store)
    (msg : ImageMsg) (img : Mat) (d : Detection) (hconv : env.toCvCopy msg "mono8" = .ok img)
    (hdet : (detectChArUcoBoard env cfg img s.camera_intrinsics_matrix
      s.camera_distortion_coefficients_matrix Vec3d.default Vec3d.default Mat.empty
      true true).result = .ok d)
    (hv : d.valid_pose = true) :
    emissions (imageCallbackTry env cfg s msg).trace
      = emissions (publishDetection env cfg msg d).trace := by
  have h1 : (invoke Event.toCvCopy (env.toCvCopy msg "mono8")).result = .ok img := hconv
  unfold imageCallbackTry
  rw [Run.bind_of_ok h1, Run.bind_of_ok hdet]
  simp only [invoke, List.singleton_append, hv, if_true]
  rw [emissions_cons_of_not Event.toCvCopy _ rfl, emissions_append]
  have hq := detectChArUcoBoard_quiet env cfg img s.camera_intrinsics_matrix
    s.camera_distortion_coefficients_matrix Vec3d.default Vec3d.default Mat.empty true true
  unfold Run.Quiet at hq
  rw [hq, List.nil_append]

theorem publishDetection_of_encoding_error (env : Collaborators) (cfg : Config) (msg : ImageMsg)
    (d : Detection) (e : Err)
    (hfill : (fillPose env d.camera_rotation_out d.camera_translation_out
      { PoseStamped.default with header := msg.header }).result = .error e) :
    emissions (publishDetection env cfg msg d).trace = [] := by
  unfold publishDetection
  rw [Run.bind_of_error hfill, fillPose_trace]
  rfl

/-- The publications of `publishDetection` once the pose is encoded: they depend
on which of the remaining steps throws first. -/
theorem publishDetection_emissions (env : Collaborators) (cfg : Config) (msg : ImageMsg)
    (d : Detection) (p : PoseStamped)
    (hfill : (fillPose env d.camera_rotation_out d.camera_translation_out
      { PoseStamped.default with header := msg.header }).result = .ok p) :
    emissions (publishDetection env cfg msg d).trace =
      match env.publishPose p with
      | .error _ => []
      | .ok _ =>
        match env.sendTransform (transformOfPose cfg msg.header p) with
        | .error _ => [.posePublished p]
        | .ok _ =>
          match env.toImageMsg Header.default "rgb8" d.image_with_detection_results with
          | .error _ => [.posePublished p, .transformSent (transformOfPose cfg msg.header p)]
          | .ok m =>
            match env.publishImage m with
            | .error _ => [.posePublished p, .transformSent (transformOfPose cfg msg.header p)]
            | .ok _ =>
              [.posePublished p, .transformSent (transformOfPose cfg msg.header p),
                .imagePublished m] := by
  unfold publishDetection
  rw [Run.bind_of_ok hfill, fillPose_trace]
  simp only [Run.bind_def, Run.bind]
  cases hp : env.publishPose p with
  | error x => simp [emit, emissions, Event.isEmission]
  | ok u =>
    cases ht : env.sendTransform (transformOfPose cfg msg.header p) with
    | error x => simp [emit, emissions, Event.isEmission]
    | ok u =>
      cases hm : env.toImageMsg Header.default "rgb8" d.image_with_detection_results with
      | error x => simp [emit, invoke, hm, emissions, Event.isEmission]
      | ok m =>
        cases hi : env.publishImage m with
        | error x => simp [emit, invoke, hm, hi, emissions, Event.isEmission]
        | ok u => simp [emit, invoke, hm, hi, emissions, Event.isEmission]

/-- Claim C6: with calibration present, when the image converts,
`detectChArUcoBoard` returns true and neither the pose encoder nor a sink nor
the image conversion throws, the callback publishes exactly one pose, one
transform and one visualization image, in this order; the transform carries the
header of the incoming image, the configured child frame `charuco_tf_frame_`,
the position of the published pose as translation and its orientation as
rotation. -/
theorem imageCallback_valid_pose_emits_all (env : Collaborators) (cfg : Config)
    (s : Store) (msg : ImageMsg) (ci : CameraInfo) (img : Mat) (d : Detection)
    (p : PoseStamped) (m : ImageMsg)
    (hs : s.camera_info_ = some ci)
    (hconv : env.toCvCopy msg "mono8" = .ok img)
    (hdet : (detectChArUcoBoard env cfg img s.camera_intrinsics_matrix
      s.camera_distortion_coefficients_matrix Vec3d.default Vec3d.default Mat.empty
      true true).result = .ok d)
    (hv : d.valid_pose = true)
    (hfill : (fillPose env d.camera_rotation_out d.camera_translation_out
      { PoseStamped.default with header := msg.header }).result = .ok p)
    (hp : env.publishPose p = .ok ())
    (ht : env.sendTransform (transformOfPose cfg msg.header p) = .ok ())
    (hm : env.toImageMsg Header.default "rgb8" d.image_with_detection_results = .ok m)
    (hi : env.publishImage m = .ok ()) :
    ∃ t : TransformStamped,
      emissions (imageCallback env cfg s msg).trace
        = [.posePublished p, .transformSent t, .imagePublished m] ∧
      t.header = msg.header ∧
      t.child_frame_id = cfg.charuco_tf_frame_ ∧
      t.transform.translation.x = p.pose.position.x ∧
      t.transform.translation.y = p.pose.position.y ∧
      t.transform.translation.z = p.pose.position.z ∧
      t.transform.rotation = p.pose.orientation := by
  refine ⟨transformOfPose cfg msg.header p, ?_, rfl, rfl, rfl, rfl, rfl, rfl⟩
  rw [imageCallback_emissions env cfg s msg ci hs,
    imageCallbackTry_of_valid env cfg s msg img d hconv hdet hv,
    publishDetection_emissions env cfg msg d p hfill]
  simp only [hp, ht, hm, hi]

/-- Claim C8, amended: with calibration present, when a collaborator throws during
a frame, the steps after it are skipped but what was already published stays
published. Nothing is published when the image conversion, the detection, the
pose encoding or the pose publication throws; only the pose is published when
the transform broadcast throws; the pose and the transform, and no
visualization, are published when the visualization conversion or publication
throws. -/
theorem imageCallback_emissions_when_raising (env : Collaborators) (cfg : Config)
    (s : Store) (msg : ImageMsg) (ci : CameraInfo) (e : Err)
    (hs : s.camera_info_ = some ci) :
    (env.toCvCopy msg "mono8" = .error e →
      emissions (imageCallback env cfg s msg).trace = []) ∧
    (∀ img, env.toCvCopy msg "mono8" = .ok img →
      ((detectChArUcoBoard env cfg img s.camera_intrinsics_matrix
          s.camera_distortion_coefficients_matrix Vec3d.default Vec3d.default Mat.empty
          true true).result = .error e →
        emissions (imageCallback env cfg s msg).trace = []) ∧
      (∀ d, (detectChArUcoBoard env cfg img s.camera_intrinsics_matrix
          s.camera_distortion_coefficients_matrix Vec3d.default Vec3d.default Mat.empty
          true true).result = .ok d → d.valid_pose = true →
        ((fillPose env d.camera_rotation_out d.camera_translation_out
            { PoseStamped.default with header := msg.header }).result = .error e →
          emissions (imageCallback env cfg s msg).trace = []) ∧
        (∀ p, (fillPose env d.camera_rotation_out d.camera_translation_out
            { PoseStamped.default with header := msg.header }).result = .ok p →
          (env.publishPose p = .error e →
            emissions (imageCallback env cfg s msg).trace = []) ∧
          (env.publishPose p = .ok () →
            (env.sendTransform (transformOfPose cfg msg.header p) = .error e →
              emissions (imageCallback env cfg s msg).trace = [.posePublished p]) ∧
            (env.sendTransform (transformOfPose cfg msg.header p) = .ok () →
              (env.toImageMsg Header.default "rgb8" d.image_with_detection_results
                  = .error e →
                emissions (imageCallback env cfg s msg).trace
                  = [.posePublished p,
                      .transformSent (transformOfPose cfg msg.header p)]) ∧
              (∀ m, env.toImageMsg Header.default "rgb8" d.image_with_detection_results
                  = .ok m → env.publishImage m = .error e →
                emissions (imageCallback env cfg s msg).trace
                  = [.posePublished p,
                      .transformSent (transformOfPose cfg msg.header p)])))))) := by
  rw [imageCallback_emissions env cfg s msg ci hs]
  refine ⟨fun hconv => ?_, fun img hconv => ⟨fun hdet => ?_, fun d hdet hv => ⟨fun hfill => ?_,
    fun p hfill => ?_⟩⟩⟩
  · rw [imageCallbackTry_of_conversion_error env cfg s msg e hconv]
    rfl
  · exact imageCallbackTry_of_detection_error env cfg s msg img e hconv hdet
  · rw [imageCallbackTry_of_valid env cfg s msg img d hconv hdet hv]
    exact publishDetection_of_encoding_error env cfg msg d e hfill
  · rw [imageCallbackTry_of_valid env cfg s msg img d hconv hdet hv,
      publishDetection_emissions env cfg msg d p hfill]
    refine ⟨fun hp => by simp only [hp], fun hp => ⟨fun ht => by simp only [hp, ht],
      fun ht => ⟨fun hm => by simp only [hp, ht, hm], fun m hm hi => by
        simp only [hp, ht, hm, hi]⟩⟩⟩

/-! ## Properties of detectChArUcoBoard -/

theorem Run.traceAll_pure {α : Type} (a : α) (p : Event → Prop) :
    (pure a : Run α).TraceAll p := by
  intro e he
  simp [Run.pure_def] at he

theorem Run.traceAll_invoke {α : Type} (e : Event) (r : Except Err α) (p : Event → Prop)
    (h : p e) : (invoke e r).TraceAll p := by
  intro e' he
  simp only [invoke, List.mem_singleton] at he
  exact he ▸ h

theorem Run.traceAll_bind {α β : Type} {x : Run α} {f : α → Run β} {p : Event → Prop}
    (hx : x.TraceAll p) (hf : ∀ a, x.result = .ok a → (f a).TraceAll p) :
    (x >>= f).TraceAll p := by
  intro e he
  rw [Run.bind_def, Run.bind] at he
  cases hr : x.result with
  | error err =>
    simp only [hr] at he
    exact hx e he
  | ok a =>
    simp only [hr, List.mem_append] at he
    rcases he with he | he
    · exact hx e he
    · exact hf a hr e he

theorem Run.traceAll_ite {α : Type} {c : Prop} [Decidable c] {x y : Run α} {p : Event → Prop}
    (hx : x.TraceAll p) (hy : y.TraceAll p) : (if c then x else y).TraceAll p := by
  split <;> assumption

theorem except_ok_or_error {ε α : Type} (x : Except ε α) :
    (∃ a, x = .ok a) ∨ (∃ e, x = .error e) := by
  cases x with
  | ok a => exact .inl ⟨a, rfl⟩
  | error e => exact .inr ⟨e, rfl⟩

/-- Claim C10, amended: the refine-markers step is never skipped. In every
invocation of `detectChArUcoBoard` in which `detectMarkers` returns, also with
an empty intrinsics matrix, `refineDetectedMarkers` is the next primitive
called, with the intrinsics matrix as given; when it returns marker ids, the
next call is the corner interpolation on the corners and ids it returned; and
every corner interpolation of the invocation receives the corners and ids
returned by `refineDetectedMarkers`. -/
theorem detectChArUcoBoard_always_refines (env : Collaborators) (cfg : Config)
    (img K D : Mat) (r0 t0 : Vec3d) (im0 : Mat) (needed sr : Bool)
    (mc : MarkerCorners) (ids : List Int) (rj : MarkerCorners)
    (hdm : env.detectMarkers img = .ok (mc, ids, rj)) :
    (∃ rest, (detectChArUcoBoard env cfg img K D r0 t0 im0 needed sr).trace
        = .detectMarkers :: .refineDetectedMarkers K :: rest ∧
      ∀ mc' ids' rj', env.refineDetectedMarkers img mc ids rj K D = .ok (mc', ids', rj') →
        ids' ≠ [] → ∃ rest', rest = .interpolateCornersCharuco mc' ids' :: rest') ∧
    (∀ a b, Event.interpolateCornersCharuco a b ∈
        (detectChArUcoBoard env cfg img K D r0 t0 im0 needed sr).trace →
      ∃ rj', env.refineDetectedMarkers img mc ids rj K D = .ok (a, b, rj')) := by
  constructor
  · have h1 : (invoke Event.detectMarkers (env.detectMarkers img)).result
        = .ok (mc, ids, rj) := hdm
    unfold detectChArUcoBoard
    rw [Run.bind_of_ok h1]
    dsimp only
    rcases except_ok_or_error (env.refineDetectedMarkers img mc ids rj K D) with
      ⟨⟨mc', ids', rj'⟩, h2⟩ | ⟨e, h2⟩
    · have h2' : (invoke (Event.refineDetectedMarkers K)
          (env.refineDetectedMarkers img mc ids rj K D)).result = .ok (mc', ids', rj') := h2
      rw [Run.bind_of_ok h2']
      simp only [invoke, List.singleton_append]
      refine ⟨_, rfl, ?_⟩
      intro a b c habc hne
      rw [h2] at habc
      simp only [Except.ok.injEq, Prod.mk.injEq] at habc
      obtain ⟨rfl, rfl, rfl⟩ := habc
      have hc : (!ids'.isEmpty) = true := by
        cases ids' with
        | nil => exact absurd rfl hne
        | cons x xs => rfl
      simp only [hc, if_true, Run.bind_def, Run.bind]
      cases env.interpolateCornersCharuco mc' ids' img K D <;> simp
    · have h2' : (invoke (Event.refineDetectedMarkers K)
          (env.refineDetectedMarkers img mc ids rj K D)).result = .error e := h2
      rw [Run.bind_of_error h2']
      exact ⟨[], by simp [invoke], fun _ _ _ h => by simp [h2] at h⟩
  · intro a b hmem
    have key : (detectChArUcoBoard env cfg img K D r0 t0 im0 needed sr).TraceAll fun e =>
        ∀ a b, e = Event.interpolateCornersCharuco a b →
          ∃ rj', env.refineDetectedMarkers img mc ids rj K D = .ok (a, b, rj') := by
      unfold detectChArUcoBoard drawDetections
      repeat' first
        | refine Run.traceAll_ite ?_ ?_
        | refine Run.traceAll_bind ?_ ?_
        | exact Run.traceAll_pure _ _
        | refine Run.traceAll_invoke _ _ _ ?_
        | rintro ⟨_, _, _⟩ _
      all_goals simp_all [invoke]
    exact key _ hmem a b rfl

/-! ## The sample runs -/

/-- The distortion loop touches nothing but the elements of the distortion
matrix, however it ends. -/
theorem copyDistortion_frame (behind : Nat → Option Scalar) (msg : CameraInfo) :
    ∀ (n i : Nat) (s : Store),
      (copyDistortion behind msg s i n).store.camera_info_ = s.camera_info_ ∧
      (copyDistortion behind msg s i n).store.camera_intrinsics_matrix
        = s.camera_intrinsics_matrix ∧
      (copyDistortion behind msg s i n).store.camera_distortion_coefficients_matrix.rows
        = s.camera_distortion_coefficients_matrix.rows ∧
      (copyDistortion behind msg s i n).store.camera_distortion_coefficients_matrix.cols
        = s.camera_distortion_coefficients_matrix.cols ∧
      (copyDistortion behind msg s i n).store.camera_distortion_coefficients_matrix.data.length
        = s.camera_distortion_coefficients_matrix.data.length := by
  intro n
  induction n with
  | zero => intro i s; exact ⟨rfl, rfl, rfl, rfl, rfl⟩
  | succ n ih =>
    intro i s
    unfold copyDistortion
    cases readDistortion behind msg i with
    | none => exact ⟨rfl, rfl, rfl, rfl, rfl⟩
    | some v =>
      obtain ⟨h1, h2, h3, h4, h5⟩ := ih (i + 1)
        { s with camera_distortion_coefficients_matrix :=
                   s.camera_distortion_coefficients_matrix.setAt 0 i v }
      refine ⟨h1, h2, h3, h4, ?_⟩
      rw [h5]
      simp [Mat.setAt]

/-- An accepted message with fewer than five distortion coefficients, whatever
lies behind the buffer of `D` and however the call ends (return or fault): the
store has the new `camera_info_` and the new intrinsic matrix, and a 1x5
distortion matrix whose last entry is not an entry of the message. -/
theorem cameraInfoCallback_short_distortion (behind : Nat → Option Scalar) (s : Store)
    (msg : CameraInfo) (hK : validCameraInfo msg = true) (hD : msg.D.length < 5) :
    (cameraInfoCallback behind s msg).store.camera_info_ = some msg ∧
    (cameraInfoCallback behind s msg).store.camera_intrinsics_matrix
      = ⟨3, 3, List.ofFn msg.K⟩ ∧
    ¬ (cameraInfoCallback behind s msg).store.holdsMessage msg := by
  simp only [cameraInfoCallback, hK, if_true, copyIntrinsics_zeros]
  have hf := copyDistortion_frame behind msg 5 0
    ⟨some msg, ⟨3, 3, List.ofFn msg.K⟩, Mat.zeros 1 5⟩
  generalize (copyDistortion behind msg
    ⟨some msg, ⟨3, 3, List.ofFn msg.K⟩, Mat.zeros 1 5⟩ 0 5).store = s' at hf ⊢
  obtain ⟨h1, h2, h3, h4, h5⟩ := hf
  simp only [Mat.zeros, List.length_replicate] at h3 h4 h5
  refine ⟨h1, h2, ?_⟩
  rintro ⟨-, -, -, -, hall⟩
  have h := hall ⟨4, by omega⟩
  have hnone : msg.D[4]? = none := List.getElem?_eq_none (by omega)
  rw [hnone] at h
  unfold Mat.getAt at h
  rw [h3, h4] at h
  simp only [Nat.lt_add_one, Nat.zero_mul, Nat.zero_add, true_and, Nat.reduceLT, if_true,
    List.getElem?_eq_none_iff] at h
  omega

/-- Witness of C1: the first image of a freshly started detector. -/
theorem imageCallback_without_calibration_witness :
    Store.initial.camera_info_ = none ∧
    imageCallback boardEnv Config.defaults Store.initial sampleImage
      = ⟨.ok Store.initial, [.warned .discardedImage]⟩ :=
  ⟨rfl, (imageCallback_without_calibration boardEnv Config.defaults Store.initial
    sampleImage rfl).1⟩

/-- Witness of C2: an all-zero `K` received by a calibrated detector. -/
theorem cameraInfoCallback_all_zero_is_noop_witness :
    (∀ i, uncalibratedInfo.K i = 0) ∧
    cameraInfoCallback garbageBehind calibratedStore uncalibratedInfo
      = .returned calibratedStore [.warned .invalidIntrinsics] :=
  ⟨fun _ => rfl, cameraInfoCallback_all_zero_is_noop garbageBehind calibratedStore
    uncalibratedInfo fun _ => rfl⟩

/-- Witness of C3: the first calibration of a pinhole camera. -/
theorem cameraInfoCallback_stores_message_witness :
    pinholeInfo.K 0 ≠ 0 ∧ pinholeInfo.D.length = 5 ∧
    ∃ s' : Store, cameraInfoCallback unmappedBehind Store.initial pinholeInfo
        = .returned s' [] ∧
      s'.camera_info_ = some pinholeInfo ∧
      s'.camera_intrinsics_matrix.getAt 1 2 = some (pinholeInfo.K 5) ∧
      s'.camera_distortion_coefficients_matrix.getAt 0 4 = some 3 :=
  ⟨by decide, rfl,
    match cameraInfoCallback_stores_message unmappedBehind Store.initial pinholeInfo
      ⟨0, by decide⟩ rfl with
    | ⟨s', h, hinfo, _, _, hK, _, _, hD⟩ => ⟨s', h, hinfo, hK 1 2, hD 4⟩⟩

/-- Claim C4 at a failing input: a calibrated detector receives the calibration
of a fisheye camera (non-zero `K`, four distortion coefficients). The loop reads
`D[4]` past the end of `D`. If the read yields a value `v` from behind the buffer
the call returns with the distortion entries `8, 4, 2, 1, v`; if the access
faults the call ends there with `8, 4, 2, 1, 0`. In both cases `camera_info_`
and the intrinsic matrix are already the new ones, and the store is neither the
prior state nor entirely the values of the message. -/
theorem cameraInfoCallback_short_distortion_mixes (behind : Nat → Option Scalar) :
    cameraInfoCallback behind calibratedStore fisheyeInfo =
      (match behind 4 with
        | some v => .returned (mixedStore v) []
        | none => .failedAccess (mixedStore 0)) ∧
    fisheyeInfo.D[4]? = none ∧
    ∀ v, (mixedStore v).camera_info_ = some fisheyeInfo ∧
      mixedStore v ≠ calibratedStore ∧ ¬ (mixedStore v).holdsMessage fisheyeInfo := by
  refine ⟨?_, rfl, fun v => ⟨rfl, ?_, ?_⟩⟩
  · have hv : validCameraInfo fisheyeInfo = true := by decide
    have hK : List.ofFn fisheyeInfo.K = [400, 0, 320, 0, 400, 240, 0, 0, 1] := by
      simp [fisheyeInfo, List.ofFn_succ]
    simp only [cameraInfoCallback, hv, if_true, copyIntrinsics_zeros, hK]
    cases h4 : behind 4 <;>
      simp [copyDistortion, readDistortion, fisheyeInfo, mixedStore, Mat.setAt, Mat.zeros,
        List.replicate, h4]
  · intro h
    have h0 := congrArg (fun s => s.camera_distortion_coefficients_matrix.getAt 0 0) h
    simp [mixedStore, calibratedStore, Mat.getAt] at h0
  · rintro ⟨-, -, -, -, hall⟩
    have h := hall ⟨4, by omega⟩
    simp [mixedStore, fisheyeInfo, Mat.getAt] at h

/-- Witness of C5: an image without board, calibration present. -/
theorem imageCallback_invalid_pose_emits_nothing_witness :
    calibratedStore.camera_info_ = some pinholeInfo ∧
    blankDetection.valid_pose = false ∧
    emissions (imageCallback blankEnv Config.defaults calibratedStore sampleImage).trace = [] :=
  ⟨rfl, rfl, (imageCallback_invalid_pose_emits_nothing blankEnv Config.defaults
    calibratedStore sampleImage pinholeInfo sampleImage.image blankDetection rfl rfl rfl rfl).2⟩

/-- Witness of C6: an image of the board, calibration present. -/
theorem imageCallback_valid_pose_emits_all_witness :
    calibratedStore.camera_info_ = some pinholeInfo ∧
    boardDetection.valid_pose = true ∧
    ∃ t : TransformStamped,
      emissions (imageCallback boardEnv Config.defaults calibratedStore sampleImage).trace
        = [.posePublished boardPose, .transformSent t, .imagePublished boardVisualization] ∧
      t.header = sampleImage.header ∧
      t.child_frame_id = Config.defaults.charuco_tf_frame_ ∧
      t.transform.translation.x = boardPose.pose.position.x ∧
      t.transform.translation.y = boardPose.pose.position.y ∧
      t.transform.translation.z = boardPose.pose.position.z ∧
      t.transform.rotation = boardPose.pose.orientation :=
  ⟨rfl, rfl, imageCallback_valid_pose_emits_all boardEnv Config.defaults calibratedStore
    sampleImage pinholeInfo sampleImage.image boardDetection boardPose boardVisualization
    rfl rfl rfl rfl rfl rfl rfl rfl rfl⟩

/-- Claim C8 as stated fails: with a transform broadcaster that throws, the frame
ends in the `catch` block, and the pose published before the throw stays
published. -/
theorem imageCallback_raising_sink_keeps_pose :
    (imageCallbackTry brokenTfEnv Config.defaults calibratedStore sampleImage).result
      = .error ⟨"tf2::TransformException"⟩ ∧
    emissions (imageCallback brokenTfEnv Config.defaults calibratedStore sampleImage).trace
      = [.posePublished boardPose] ∧
    emissions (imageCallback brokenTfEnv Config.defaults calibratedStore sampleImage).trace
      ≠ [] := by
  refine ⟨rfl, ?_, ?_⟩ <;> decide

/-- Witness of C8, amended: the transform broadcaster throws after the pose was
published. -/
theorem imageCallback_emissions_when_raising_witness :
    calibratedStore.camera_info_ = some pinholeInfo ∧
    brokenTfEnv.sendTransform (transformOfPose Config.defaults sampleImage.header boardPose)
      = .error ⟨"tf2::TransformException"⟩ ∧
    emissions (imageCallback brokenTfEnv Config.defaults calibratedStore sampleImage).trace
      = [.posePublished boardPose] :=
  ⟨rfl, rfl,
    ((((((imageCallback_emissions_when_raising brokenTfEnv Config.defaults calibratedStore
      sampleImage pinholeInfo ⟨"tf2::TransformException"⟩ rfl).2 sampleImage.image rfl).2
      boardDetection rfl rfl).2 boardPose rfl).2 rfl).1 rfl)⟩

/-- Claim C10 as stated fails: with an empty intrinsics matrix the refinement is
called all the same, and the corner interpolation receives the two markers it
returned, not the single marker returned by `detectMarkers`. -/
theorem detectChArUcoBoard_refines_without_intrinsics :
    Mat.empty.total = 0 ∧
    boardEnv.detectMarkers sampleImage.image = .ok ([markerA], [3], [candidateB]) ∧
    Event.refineDetectedMarkers Mat.empty ∈
      (detectChArUcoBoard boardEnv Config.defaults sampleImage.image Mat.empty Mat.empty
        Vec3d.default Vec3d.default Mat.empty true true).trace ∧
    Event.interpolateCornersCharuco [markerA, candidateB] [3, 7] ∈
      (detectChArUcoBoard boardEnv Config.defaults sampleImage.image Mat.empty Mat.empty
        Vec3d.default Vec3d.default Mat.empty true true).trace ∧
    Event.interpolateCornersCharuco [markerA] [3] ∉
      (detectChArUcoBoard boardEnv Config.defaults sampleImage.image Mat.empty Mat.empty
        Vec3d.default Vec3d.default Mat.empty true true).trace := by
  refine ⟨rfl, rfl, ?_, ?_, ?_⟩ <;> decide

/-- Witness of C10, amended: the board seen without camera intrinsics. -/
theorem detectChArUcoBoard_always_refines_witness :
    boardEnv.detectMarkers sampleImage.image = .ok ([markerA], [3], [candidateB]) ∧
    ∀ a b, Event.interpolateCornersCharuco a b ∈
        (detectChArUcoBoard boardEnv Config.defaults sampleImage.image Mat.empty Mat.empty
          Vec3d.default Vec3d.default Mat.empty true true).trace →
      ∃ rj', boardEnv.refineDetectedMarkers sampleImage.image [markerA] [3] [candidateB]
        Mat.empty Mat.empty = .ok (a, b, rj') :=
  ⟨rfl, (detectChArUcoBoard_always_refines boardEnv Config.defaults sampleImage.image
    Mat.empty Mat.empty Vec3d.default Vec3d.default Mat.empty true true [markerA] [3]
    [candidateB] rfl).2⟩

end charuco_detector
